import Mathlib

/-!
Shallow embedding of the `varys` voice-assistant experiment harness.

The embedding follows the sources under `src/`:
`src/src/assistant/interactor.rs` (the interaction engine),
`src/src/database/interaction.rs` (the interaction store row and its SQL),
`src/src/listen.rs` (the listener's silence-gated recording and calibration),
`src/varys/src/dataset.rs` (dataset-size filters).

External collaborators whose code is not part of the snapshot (speaker, sniffer,
monitoring, file writes, the session table's SQL) appear as explicit outcome
parameters of type `Except Error _`: each parameter is the result the external
call would return, and the embedded control flow around those calls is taken
from the Rust sources line by line.  Wall-clock reads (`Utc::now()`,
`Instant::now()`) are modelled by an explicit clock.
-/

namespace Varys

/-- The error taxonomy (spec section 7; `src/error.rs` is summarised there).  Only the
shape matters to the embedded control flow: every fallible call yields `Except Error`. -/
inductive Error where
  | AudioInputDeviceNotFound
  | ConfigurationNotSupported
  | StillRecording
  | RecordingFailed
  | OutOfRange
  | StreamBuild
  | StreamPlay
  | SpeakerError
  | SnifferError
  | Recognition
  | ModelLoad
  | UnsupportedRate
  | EmptyAudio
  | StoreConnect
  | StoreQuery
  | StoreNotFound
  | FileIo
  | NoVoiceProvided
  | Monitoring
deriving DecidableEq, Repr

/-- Decidable equality for call results, so that concrete runs can be checked by
`decide`. -/
instance exceptDecEq {α β : Type} [DecidableEq α] [DecidableEq β] :
    DecidableEq (Except α β)
  | .ok a, .ok b => if h : a = b then .isTrue (by rw [h]) else .isFalse (by simp [h])
  | .ok _, .error _ => .isFalse (by simp)
  | .error _, .ok _ => .isFalse (by simp)
  | .error a, .error b => if h : a = b then .isTrue (by rw [h]) else .isFalse (by simp [h])

/-- A query (`src/src/database/query.rs` as used by `interactor.rs`): the literal text
spoken to the assistant and a category label. -/
structure Query where
  text : String
  category : String
deriving DecidableEq, Repr

/-- Modelled from the spec: `AudioData` lives in `src/listen/audio.rs`, which is not in
the snapshot.  Spec section 3: a sequence of f32 samples, a channel count and a sample
rate; section 4.1: `duration_ms()` is `samples.len() / channels * 1000 / sample_rate`.
Sample values are modelled as rationals (each finite f32 is a rational; float rounding
is not modelled, no sample arithmetic happens in the embedded paths). -/
structure AudioData where
  data : List ℚ
  channels : Nat
  sample_rate : Nat
deriving DecidableEq, Repr

/-- Spec section 4.1: `duration_ms()` = `samples.len() / channels * 1000 / sample_rate`
in integer arithmetic. -/
def AudioData.duration_ms (a : AudioData) : Nat :=
  a.data.length / a.channels * 1000 / a.sample_rate

/-- A stored session row, with the columns of the logical schema
`session(id, started, ended, interface, voice, sensitivity, model, data_dir)`
(spec section 6).  Timestamps are clock values. -/
structure SessionRow where
  id : Nat
  started : Nat
  ended : Option Nat
  interface : String
  voice : String
  sensitivity : String
  model : String
  data_dir : Option String
deriving DecidableEq, Repr

/-- The in-memory `Interaction` struct as `interactor.rs` uses it: the fields of
`src/src/database/interaction.rs` plus the duration and file fields that
`interactor.rs` assigns (`query_duration`, `response_duration`, `query_file`,
`response_file`, `capture_file`). -/
structure Interaction where
  id : Nat
  session_id : Nat
  query : String
  response : Option String
  query_duration : Option Nat
  response_duration : Option Nat
  query_file : Option String
  response_file : Option String
  capture_file : Option String
  started : Nat
  ended : Option Nat
deriving DecidableEq, Repr

/-- A stored interaction row, with the columns of the logical schema
`interaction(id, session_id, query, response, query_duration, response_duration,
query_file, response_file, capture_file, started, ended)` (spec section 6). -/
structure InteractionRow where
  id : Nat
  session_id : Nat
  query : String
  response : Option String
  query_duration : Option Nat
  response_duration : Option Nat
  query_file : Option String
  response_file : Option String
  capture_file : Option String
  started : Nat
  ended : Option Nat
deriving DecidableEq, Repr

/-- The effect on a stored row of the UPDATE statement in `Interaction::update`
(`src/src/database/interaction.rs`, lines 69-85).  The statement is
`UPDATE interaction SET (session_id, query, query_duration, response,
response_duration, started, ended) = (...) WHERE id = $8`: it writes exactly those
seven columns and no others; in particular the three file-reference columns keep
whatever value the row already has. -/
def Interaction.updateRow (i : Interaction) (r : InteractionRow) : InteractionRow :=
  { r with
    session_id := i.session_id
    query := i.query
    query_duration := i.query_duration
    response := i.response
    response_duration := i.response_duration
    started := i.started
    ended := i.ended }

/-- The store: the session table and the interaction table, rows in insertion order. -/
structure Db where
  sessions : List SessionRow
  interactions : List InteractionRow
deriving DecidableEq, Repr

/-- Apply a per-row update to the interaction row with the given id (the SQL
`WHERE id = $8` clause of a single-row UPDATE). -/
def Db.updateInteraction (db : Db) (id : Nat) (f : InteractionRow → InteractionRow) : Db :=
  { db with interactions := db.interactions.map fun r => if r.id = id then f r else r }

/-- Apply a per-row update to the session row with the given id. -/
def Db.updateSession (db : Db) (id : Nat) (f : SessionRow → SessionRow) : Db :=
  { db with sessions := db.sessions.map fun r => if r.id = id then f r else r }

/-- Look up an interaction row by id. -/
def Db.interactionRow (db : Db) (id : Nat) : Option InteractionRow :=
  db.interactions.find? fun r => r.id == id

/-- Look up a session row by id. -/
def Db.sessionRow (db : Db) (id : Nat) : Option SessionRow :=
  db.sessions.find? fun r => r.id == id

/-- Observable events of one engine run: every call the engine makes to a peripheral
or to the store, plus the log lines the sources emit at decision points.  A `...Call`
event is recorded at the moment the call is made, before its outcome is known. -/
inductive Event where
  | startInteractionLog (query : String)
  | pingWarnLog
  | snifferStartCall (path : String)
  | listenerStartCall
  | sayCall (text : String)
  | listenerStopCall
  | writeAudioCall (path : String)
  | rowUpdateCall (id : Nat)
  | recordUntilSilentCall
  | snifferStopCall
  | recogniseCall
  | interactionCompleteCall (id : Nat)
  | interactionErrorLog
  | voiceSetCall (voice : String)
  | connectCall
  | sessionCreate (id : Nat)
  | createDirCall (path : String)
  | sessionUpdateCall (id : Nat)
  | sessionCompleteCall (id : Nat)
deriving DecidableEq, Repr

/-- Engine-visible state threaded through a run: the store, the trace of events so
far, and the wall clock (each read of `Utc::now()` returns the clock and advances it). -/
structure EngSt where
  db : Db
  events : List Event
  clock : Nat
deriving DecidableEq, Repr

/-- Record an event at the end of the trace. -/
def EngSt.emit (st : EngSt) (e : Event) : EngSt :=
  { st with events := st.events ++ [e] }

/-- Read the clock (`Utc::now()` / `Instant::now()`), advancing it. -/
def EngSt.tick (st : EngSt) : Nat × EngSt :=
  (st.clock, { st with clock := st.clock + 1 })

/-- Early-return composition: Rust's `?` operator on a call that already updated the
state.  An error propagates together with the state accumulated so far. -/
def andThen {α β : Type} (x : Except Error α × EngSt) (k : α → EngSt → Except Error β × EngSt) :
    Except Error β × EngSt :=
  match x with
  | (.error e, st) => (.error e, st)
  | (.ok a, st) => k a st

/-- An external call: record that the call was made, then yield the outcome the
environment returns for it. -/
def callStep {α : Type} (ev : Event) (out : Except Error α) (st : EngSt) :
    Except Error α × EngSt :=
  (out, st.emit ev)

/-- The interactor configuration snapshot stored into the session row
(`src/src/database/interactor_config.rs` as used by `begin_session`). -/
structure InteractorConfig where
  interface : String
  voice : String
  sensitivity : String
  model : String
deriving DecidableEq, Repr

/-- `Interactor` (`src/src/assistant/interactor.rs`, lines 23-33): configuration, the
voice queue, and the peripherals.  The peripherals themselves are external; the one
piece of peripheral state the claims observe, the speaker's current voice, is kept
here. -/
structure Interactor where
  interface : String
  voices : List String
  speakerVoice : Option String
  sensitivity : ℚ
  model : String
  data_dir : String
deriving DecidableEq, Repr

/-- `Interactor::begin_session`'s result (`interactor.rs`, lines 124-129): the
interactor bound to a session row and the session's data directory. -/
structure InteractorInstance where
  interactor : Interactor
  session : SessionRow
  session_path : List String
deriving DecidableEq, Repr

/-- `Interaction::create` (`src/src/database/interaction.rs`, lines 28-48): read
`Utc::now()`, INSERT `(started, session_id, query)` returning a fresh id, and build
the in-memory struct with every other field `None`.  `insertOk` is the INSERT's
outcome; ids are assigned as one past the number of stored rows. -/
def Interaction.create (insertOk : Except Error Unit) (session : SessionRow) (q : Query)
    (st : EngSt) : Except Error Interaction × EngSt :=
  let (started, st) := st.tick
  match insertOk with
  | .error e => (.error e, st)
  | .ok _ =>
    let id := st.db.interactions.length + 1
    let row : InteractionRow :=
      { id := id, session_id := session.id, query := q.text, response := none
        query_duration := none, response_duration := none, query_file := none
        response_file := none, capture_file := none, started := started, ended := none }
    let st := { st with db := { st.db with interactions := st.db.interactions ++ [row] } }
    (.ok { id := id, session_id := session.id, query := q.text, response := none
           query_duration := none, response_duration := none, query_file := none
           response_file := none, capture_file := none, started := started, ended := none },
     st)

/-- `Interaction::update` (`src/src/database/interaction.rs`, lines 69-85): run the
UPDATE statement (see `Interaction.updateRow` for the columns it writes).  `updateOk`
is the statement's outcome; a failed single-row transaction leaves the store
untouched. -/
def Interaction.update (updateOk : Except Error Unit) (i : Interaction) (st : EngSt) :
    Except Error Unit × EngSt :=
  let st := st.emit (.rowUpdateCall i.id)
  match updateOk with
  | .error e => (.error e, st)
  | .ok _ => (.ok (), { st with db := st.db.updateInteraction i.id i.updateRow })

/-- `Interaction::complete` (`src/src/database/interaction.rs`, lines 92-97): set
`ended = Utc::now()` on the struct, then `update`. -/
def Interaction.complete (updateOk : Except Error Unit) (i : Interaction) (st : EngSt) :
    Except Error Interaction × EngSt :=
  let (t, st) := st.tick
  let i := { i with ended := some t }
  let st := st.emit (.interactionCompleteCall i.id)
  match Interaction.update updateOk i st with
  | (.error e, st) => (.error e, st)
  | (.ok _, st) => (.ok i, st)

/-- Modelled from the spec: `Session::create` — `src/src/database/session.rs` is not in
the snapshot; spec section 4.6 says it inserts a new session with an assigned id and
`started = now`, snapshotting the interactor configuration. -/
def Session.create (insertOk : Except Error Unit) (config : InteractorConfig) (st : EngSt) :
    Except Error SessionRow × EngSt :=
  let (started, st) := st.tick
  match insertOk with
  | .error e => (.error e, st)
  | .ok _ =>
    let id := st.db.sessions.length + 1
    let s : SessionRow :=
      { id := id, started := started, ended := none, interface := config.interface
        voice := config.voice, sensitivity := config.sensitivity, model := config.model
        data_dir := none }
    let st := st.emit (.sessionCreate id)
    let st := { st with db := { st.db with sessions := st.db.sessions ++ [s] } }
    (.ok s, st)

/-- Modelled from the spec: `Session::update` — `src/src/database/session.rs` is not in
the snapshot; spec section 4.6 lists it as a per-row update writing the session
struct's values back to its row. -/
def Session.update (updateOk : Except Error Unit) (s : SessionRow) (st : EngSt) :
    Except Error Unit × EngSt :=
  let st := st.emit (.sessionUpdateCall s.id)
  match updateOk with
  | .error e => (.error e, st)
  | .ok _ => (.ok (), { st with db := st.db.updateSession s.id fun _ => s })

/-- Modelled from the spec: `Session::complete` — `src/src/database/session.rs` is not
in the snapshot; spec section 4.6: "sets `ended = now` then updates". -/
def Session.complete (updateOk : Except Error Unit) (s : SessionRow) (st : EngSt) :
    Except Error SessionRow × EngSt :=
  let (t, st) := st.tick
  let s := { s with ended := some t }
  let st := st.emit (.sessionCompleteCall s.id)
  match Session.update updateOk s st with
  | (.error e, st) => (.error e, st)
  | (.ok _, st) => (.ok s, st)

/-- `data_file_name` (`interactor.rs`, lines 262-276):
`s<sid>i<iid>-<data_type>-<ts>.<file_type>`, where `<ts>` is the `Utc::now()`
timestamp read inside the function (here: the clock value, rendered in decimal). -/
def data_file_name (session : SessionRow) (i : Interaction) (data_type file_type : String)
    (ts : Nat) : String :=
  "s" ++ toString session.id ++ "i" ++ toString i.id ++ "-" ++ data_type ++ "-"
    ++ toString ts ++ "." ++ file_type

/-- `audio_file_name` (`interactor.rs`, lines 254-256). -/
def audio_file_name (session : SessionRow) (i : Interaction) (prefixPart : String)
    (ts : Nat) : String :=
  data_file_name session i (prefixPart ++ "-audio") "opus" ts

/-- `capture_file_name` (`interactor.rs`, lines 258-260). -/
def capture_file_name (session : SessionRow) (i : Interaction) (ts : Nat) : String :=
  data_file_name session i "capture" "pcap" ts

/-- `file::file_name_or_full` (`src/src/file.rs`, lines 70-76): the final path
component when the path has one, otherwise the full path.  Paths are modelled as
their components. -/
def file_name_or_full (p : List String) : String :=
  match p.getLast? with
  | some name => name
  | none => String.intercalate "/" p

/-- The outcome of every fallible call one `InteractorInstance::interaction` makes, in
source order (`interactor.rs`, lines 193-251).  The peripherals and the store are
external: each field is the value the corresponding call would return. -/
structure StepOutcomes where
  ping : Except Error Unit
  create : Except Error Unit
  snifferStart : Except Error Unit
  listenerStart : Except Error Unit
  say : Except Error Nat
  queryStop : Except Error AudioData
  queryWrite : Except Error Unit
  update1 : Except Error Unit
  record : Except Error AudioData
  responseWrite : Except Error Unit
  update2 : Except Error Unit
  snifferStop : Except Error String
  recognise : Except Error String
  update3 : Except Error Unit
  complete : Except Error Unit
deriving Repr

/-- `InteractorInstance::interaction` (`interactor.rs`, lines 193-251), transcribed
call by call; every Rust `?` is an `andThen` early return. -/
def InteractorInstance.interaction (o : StepOutcomes) (inst : InteractorInstance)
    (q : Query) (st : EngSt) : Except Error Unit × EngSt :=
  -- info!("Starting interaction with ...")
  let st := st.emit (.startInteractionLog q.text)
  -- monitoring::ping: a failure is logged at warn and ignored
  let st := match o.ping with
    | .ok _ => st
    | .error _ => st.emit .pingWarnLog
  -- Interaction::create
  andThen (Interaction.create o.create inst.session q st) fun i st =>
  -- capture path (Utc::now() is read inside capture_file_name)
  let (ts1, st) := st.tick
  let capture_path := inst.session_path ++ [capture_file_name inst.session i ts1]
  -- sniffer.start(&capture_path)
  andThen (callStep (Event.snifferStartCall (file_name_or_full capture_path))
      o.snifferStart st) fun _ st =>
  -- listener.start()
  andThen (callStep Event.listenerStartCall o.listenerStart st) fun _ st =>
  -- speaker.say(&query.text, true)
  andThen (callStep (Event.sayCall q.text) o.say st) fun query_duration st =>
  let i := { i with query_duration := some query_duration }
  -- query_instance.stop()
  andThen (callStep Event.listenerStopCall o.queryStop st) fun _query_audio st =>
  let (ts2, st) := st.tick
  let query_audio_path := inst.session_path ++ [audio_file_name inst.session i "query" ts2]
  -- file::audio::write_audio(&query_audio_path, &query_audio)
  andThen (callStep (Event.writeAudioCall (file_name_or_full query_audio_path))
      o.queryWrite st) fun _ st =>
  let i := { i with query_file := some (file_name_or_full query_audio_path) }
  andThen (Interaction.update o.update1 i st) fun _ st =>
  -- listener.record_until_silent(SILENCE_DURATION, sensitivity)
  andThen (callStep Event.recordUntilSilentCall o.record st) fun response_audio st =>
  let i := { i with response_duration := some response_audio.duration_ms }
  let (ts3, st) := st.tick
  let response_audio_path :=
    inst.session_path ++ [audio_file_name inst.session i "response" ts3]
  andThen (callStep (Event.writeAudioCall (file_name_or_full response_audio_path))
      o.responseWrite st) fun _ st =>
  let i := { i with response_file := some (file_name_or_full response_audio_path) }
  andThen (Interaction.update o.update2 i st) fun _ st =>
  -- info!("{}", sniffer_instance.stop()?)
  andThen (callStep Event.snifferStopCall o.snifferStop st) fun _summary st =>
  let i := { i with capture_file := some (file_name_or_full capture_path) }
  -- recogniser.recognise(&mut response_audio)
  andThen (callStep Event.recogniseCall o.recognise st) fun transcript st =>
  let i := { i with response := some transcript }
  andThen (Interaction.update o.update3 i st) fun _ st =>
  -- interaction.complete(...)
  andThen (Interaction.complete o.complete i st) fun _ st =>
  (.ok (), st)

/-- The per-query loop of `InteractorInstance::start` (`interactor.rs`, lines
182-186): each query runs `interaction`; an error is logged
(`error!("An interaction did not complete successfully: ...")`) and the loop moves to
the next query.  `orc k` is the outcome record the environment supplies for the
query at position `k`. -/
def runQueries (orc : Nat → StepOutcomes) (inst : InteractorInstance) :
    Nat → List Query → EngSt → EngSt
  | _, [], st => st
  | k, q :: rest, st =>
    let st := match InteractorInstance.interaction (orc k) inst q st with
      | (.ok _, st) => st
      | (.error _, st) => st.emit .interactionErrorLog
    runQueries orc inst (k + 1) rest st

/-- `InteractorInstance::start` (`interactor.rs`, lines 179-191): run the per-query
loop, then `session.complete(...)?` and return the interactor. -/
def InteractorInstance.start (orc : Nat → StepOutcomes) (sessionComplete : Except Error Unit)
    (inst : InteractorInstance) (queries : List Query) (st : EngSt) :
    Except Error Interactor × EngSt :=
  let st := runQueries orc inst 0 queries st
  andThen (Session.complete sessionComplete inst.session st) fun _ st =>
  (.ok inst.interactor, st)

/-- The outcome of every fallible call `Interactor::begin_session` makes, in source
order (`interactor.rs`, lines 87-121). -/
structure BeginOutcomes where
  set_voice : Except Error Unit
  connect : Except Error Unit
  create : Except Error Unit
  create_dir : Except Error Unit
  update : Except Error Unit
deriving Repr

/-- `Interactor::begin_session` (`interactor.rs`, lines 87-121): pop the front voice
(failing with `NoVoiceProvided` when the queue is empty), push it to the back, set it
on the speaker, connect, create a session row, create the session directory, store its
path in the row and return the bound instance. -/
def Interactor.begin_session (o : BeginOutcomes) (it : Interactor) (st : EngSt) :
    Except Error InteractorInstance × EngSt :=
  match it.voices with
  | [] => (.error .NoVoiceProvided, st)
  | voice :: rest =>
    let it := { it with voices := rest ++ [voice] }
    andThen (callStep (Event.voiceSetCall voice) o.set_voice st) fun _ st =>
    let it := { it with speakerVoice := some voice }
    andThen (callStep Event.connectCall o.connect st) fun _ st =>
    andThen (Session.create o.create
        { interface := it.interface, voice := voice
          sensitivity := toString it.sensitivity, model := it.model } st) fun session st =>
    let session_path := [it.data_dir, "sessions", "session_" ++ toString session.id]
    andThen (callStep (Event.createDirCall (String.intercalate "/" session_path))
        o.create_dir st) fun _ st =>
    let session := { session with data_dir := some (String.intercalate "/" session_path) }
    andThen (Session.update o.update session st) fun _ st =>
    (.ok { interactor := it, session := session, session_path := session_path }, st)

/-- All of `begin_session`'s external calls succeed. -/
def beginAllOk : BeginOutcomes :=
  { set_voice := .ok (), connect := .ok (), create := .ok (), create_dir := .ok ()
    update := .ok () }

/-- The voices of `k` consecutive sessions begun one after the other with every
external call succeeding: each session's stored voice, in order. -/
def runSessionsVoices : Nat → Interactor → EngSt → List String
  | 0, _, _ => []
  | k + 1, it, st =>
    match Interactor.begin_session beginAllOk it st with
    | (.ok inst, st') => inst.session.voice :: runSessionsVoices k inst.interactor st'
    | (.error _, _) => []

/-- The receive loop of `Listener::record_until_silent` (`src/src/listen.rs`, lines
165-180).  Wall-clock instants and f32 window averages are modelled as rationals (the
finite f32 values order-embed into ℚ and only order comparisons happen); the average
channel yields `windows`, each entry pairing the `Instant::now()` value sampled right
after the `recv` with the received average.  The result is how many windows the loop
consumed before exiting, whether by `break` or because the channel closed. -/
def recordUntilSilentLoop (recording_timeout : Option ℚ)
    (silence_duration silence_threshold started : ℚ) :
    ℚ → List (ℚ × ℚ) → Nat
  | _, [] => 0
  | last_audio_detected, (now, average) :: rest =>
    let last := if silence_threshold < average then now else last_audio_detected
    if last < now - silence_duration then 1
    else
      match recording_timeout with
      | some timeout =>
        if started < now - timeout then 1
        else 1 + recordUntilSilentLoop recording_timeout silence_duration silence_threshold
          started last rest
      | none => 1 + recordUntilSilentLoop recording_timeout silence_duration silence_threshold
          started last rest

/-- `Listener::record_until_silent` (`src/src/listen.rs`, lines 154-182): start an
instance, run the receive loop from the two `Instant::now()` reads (`started`, the
initial `last_audio_detected`), then stop the instance.  `startOk` and `stopOut` are
the instance outcomes; the returned pair carries how many windows the loop consumed
together with the recorded audio. -/
def record_until_silent (startOk : Except Error Unit) (stopOut : Except Error AudioData)
    (recording_timeout : Option ℚ) (silence_duration silence_threshold : ℚ)
    (started last0 : ℚ) (windows : List (ℚ × ℚ)) : Except Error (Nat × AudioData) :=
  match startOk with
  | .error e => .error e
  | .ok _ =>
    let consumed := recordUntilSilentLoop recording_timeout silence_duration
      silence_threshold started last0 windows
    match stopOut with
    | .error e => .error e
    | .ok audio => .ok (consumed, audio)

/-- A 32-bit float result as `Listener::calibrate` can produce one: NaN, a signed
infinity, or a finite value.  Finite values are modelled exactly as rationals (float
rounding is not modelled; the claims about `calibrate` turn on the zero-length case,
where the empty f32 sum is exactly `0.0`). -/
inductive F32 where
  | nan
  | inf (negative : Bool)
  | fin (val : ℚ)
deriving DecidableEq, Repr

/-- IEEE-754 division for the operands `calibrate` can feed it (both finite):
`0.0 / 0.0` is NaN, a nonzero finite value over `0.0` is a signed infinity, and any
other finite quotient is finite.  Non-finite operands do not occur on the embedded
path and are mapped to NaN. -/
def F32.div : F32 → F32 → F32
  | .fin a, .fin b =>
    if b = 0 then (if a = 0 then .nan else .inf (decide (a < 0))) else .fin (a / b)
  | _, _ => .nan

/-- `Listener::calibrate` (`src/src/listen.rs`, lines 219-234): start an instance,
collect every average the channel yields until the calibration window closes
(`averages`, in arrival order), stop the instance, and return
`averages.iter().sum::<f32>() / averages.len() as f32` — the final division has no
guard against an empty collection.  `startOk` and `stopOut` are the instance
outcomes. -/
def calibrate (startOk : Except Error Unit) (stopOut : Except Error AudioData)
    (averages : List ℚ) : Except Error F32 :=
  match startOk with
  | .error e => .error e
  | .ok _ =>
    match stopOut with
    | .error e => .error e
    | .ok _ => .ok (F32.div (.fin averages.sum) (.fin (averages.length : ℚ)))

/-- `DatasetSize` (`src/varys/src/dataset.rs`, lines 5-14). -/
inductive DatasetSize where
  | Full
  | Small
  | Binary
deriving DecidableEq, Repr

/-- `DatasetSize::queries` (`src/varys/src/dataset.rs`, lines 36-299): the fixed query
list of each dataset size, transcribed verbatim (for `Full` the thirteen commented-out
small-dataset queries are, as in the source, not part of the list). -/
def DatasetSize.queries : DatasetSize → List String
  | .Full =>
    ["Hey Siri. What are 130 miles in yards?",
      "Hey Siri. What's 200 pounds in kilograms?",
      "Hey Siri. What's 45 miles per hour in meters per second?",
      "Hey Siri. What are 3 gigabytes in megabytes?",
      "Hey Siri. Convert 4.2 acres to square meters.",
      "Hey Siri. Convert 250 milliliters to cups.",
      "Hey Siri. Convert 180 degrees Celsius to Fahrenheit.",
      "Hey Siri. Convert 3000 calories to kilojoules.",
      "Hey Siri. Convert 75 miles per gallon to kilometers per liter.",
      "Hey Siri. What’s 9 plus 53?",
      "Hey Siri. What is 2 to the power of 17?",
      "Hey Siri. What is the result of 25 to the power of 4?",
      "Hey Siri. What is 244 plus 5%?",
      "Hey Siri. What is $200 minus 21%?",
      "Hey Siri. What is 9 percent of 63?",
      "Hey Siri. What is the area of a circle with a radius of 2 meters?",
      "Hey Siri. What is the remainder when 27 is divided by 5?",
      "Hey Siri. Calculate the hypotenuse of a right triangle with legs 3 and 4.",
      "Hey Siri. Find the greatest common divisor of 48 and 36.",
      "Hey Siri. What date is 90 days before December 17?",
      "Hey Siri. What year is 39 years after 1994?",
      "Hey Siri. How many years until 2049?",
      "Hey Siri. How many days until Easter?",
      "Hey Siri. How many days until Christmas?",
      "Hey Siri. What are two hours five minutes and 39 seconds in seconds?",
      "Hey Siri. What is the time zone in London?",
      "Hey Siri. What time is it in London?",
      "Hey Siri. Current time?",
      "Hey Siri. Turn the lights blue",
      "Hey Siri. Turn off the radio",
      "Hey Siri. I’m home",
      "Hey Siri. Set the brightness of the downstairs lights to 50%",
      "Hey Siri. Lock the front door",
      "Hey Siri. Open the garage",
      "Hey Siri. John is my brother",
      "Hey Siri. That’s not how you say John Doe",
      "Hey Siri. Show John Doe",
      "Hey Siri. When is John’s birthday?",
      "Hey Siri. How old is my brother?",
      "Hey Siri. Whose phone is this?",
      "Hey Siri. Learn to pronounce my name",
      "Hey Siri. Call John",
      "Hey Siri. Call 408 555 1212",
      "Hey Siri. Call my brother on speakerphone",
      "Hey Siri. Call the nearest restaurant",
      "Hey Siri. When did my brother call me?",
      "Hey Siri. Play voicemail from John",
      "Hey Siri. Get my call history",
      "Hey Siri. Redial my last number",
      "Hey Siri. Call back my last missed call",
      "Hey Siri. Any new voicemail?",
      "Hey Siri. Play me my latest voicemail",
      "Hey Siri. Show me new messages from John Doe",
      "Hey Siri. Show me my messages",
      "Hey Siri. Read my messages",
      "Hey Siri. Text John Doe I’m in a meeting",
      "Hey Siri. Message my brother I’ll be late",
      "Hey Siri. Send John see you later",
      "Hey Siri. Tell John I’m on the way",
      "Hey Siri. Ask my brother Where are you?",
      "Hey Siri. Any new email from John Doe?",
      "Hey Siri. Show me the email from John Doe yesterday",
      "Hey Siri. Send an email to John Doe Protocol",
      "Hey Siri. Check email",
      "Hey Siri. Read my last email",
      "Hey Siri. Post to Facebook I’m eating a sandwich",
      "Hey Siri. Post to Twitter Happy New Year!",
      "Hey Siri. Tweet with my location very hot here",
      "Hey Siri. Show me tweets from Twitter",
      "Hey Siri. Show me the latest tweets",
      "Hey Siri. Schedule an event Party in New York Wednesday at 10 PM",
      "Hey Siri. Schedule a meeting at 1 PM tomorrow for 2 hours",
      "Hey Siri. Create a recurring event every Saturday at 2:30 PM called Party",
      "Hey Siri. Set up a meeting with John for today at 3 PM",
      "Hey Siri. Show me my next appointment",
      "Hey Siri. Where is my next meeting?",
      "Hey Siri. Show me the appointments for this afternoon",
      "Hey Siri. What does my calendar look like on Monday?",
      "Hey Siri. When am I meeting with John Doe?",
      "Hey Siri. Cancel my Party in New York event from tomorrow",
      "Hey Siri. Cancel my event with John Doe",
      "Hey Siri. Move my Monday meeting with John to 3 o’clock",
      "Hey Siri. Remind me on Friday at 10 PM to wash the car",
      "Hey Siri. Add Milk to the Grocery list",
      "Hey Siri. Remind me to wash the car when I leave home today",
      "Hey Siri. Remind me to buy milk next time I’m here",
      "Hey Siri. Remind me to wash the car every second week",
      "Hey Siri. Delete the reminder wash the car",
      "Hey Siri. Show me my Grocery list",
      "Hey Siri. Note 12 Dollars for pizza",
      "Hey Siri. Note Interesting Movies",
      "Hey Siri. Add 10 Dollars for food to Outcomes note",
      "Hey Siri. Add Star Wars to Interesting Movies note",
      "Hey Siri. Show me my notes",
      "Hey Siri. Show me my note Interesting Movies",
      "Hey Siri. Show me my notes from last week",
      "Hey Siri. Tell me about the traffic in New York",
      "Hey Siri. What are some attractions around here?",
      "Hey Siri. Where is Big Ben?",
      "Hey Siri. Is the Central Park open now?",
      "Hey Siri. Distance between here and New York?",
      "Hey Siri. How far away is Boston?",
      "Hey Siri. What is the nearest restaurant?",
      "Hey Siri. Find a Starbucks",
      "Hey Siri. Good Mexican restaurants around here",
      "Hey Siri. Table for two in Palo Alto tonight",
      "Hey Siri. Make a reservation at a romantic Italian restaurant tonight at 7 PM",
      "Hey Siri. Show me the reviews for Alexander’s Steakhouse in Cupertino",
      "Hey Siri. Turn off my alarm",
      "Hey Siri. Delete all alarms",
      "Hey Siri. Turn off my Good Morning alarm",
      "Hey Siri. Show me my alarms",
      "Hey Siri. Is Ian McKellen still alive?",
      "Hey Siri. How tall is Ian McKellen?",
      "Hey Siri. Where was Ian McKellen born?",
      "Hey Siri. Who is Ian McKellen married to?",
      "Hey Siri. Who wrote Harry Potter?",
      "Hey Siri. Who invented the iPhone?",
      "Hey Siri. How far away is the moon?",
      "Hey Siri. How high is Mount Everest?",
      "Hey Siri. What is the population of Switzerland?",
      "Hey Siri. How many calories in a bagel?",
      "Hey Siri. How long do dogs live?",
      "Hey Siri. How many teeth does a dog have?",
      "Hey Siri. What type of Pokémon is Pikachu?",
      "Hey Siri. Spell necessary",
      "Hey Siri. What’s the weather like?",
      "Hey Siri. Do I need an umbrella for tomorrow?",
      "Hey Siri. What’s the weather going to be like in Madrid tomorrow?",
      "Hey Siri. Is there is a chance of rain tomorrow?",
      "Hey Siri. What’s the perceived temperature outside?",
      "Hey Siri. What’s the dew point outside?",
      "Hey Siri. Is it windy outside?",
      "Hey Siri. What’s the pressure outside?",
      "Hey Siri. What’s the visibility outside?",
      "Hey Siri. What is the KP Index?",
      "Hey Siri. How humid is it outside?",
      "Hey Siri. When is the sunrise?",
      "Hey Siri. When is the sunset tomorrow?",
      "Hey Siri. When is the sunrise on Friday?",
      "Hey Siri. When is the sunset in New York?",
      "Hey Siri. What’s the Apple stock price?",
      "Hey Siri. Compare Apple with Alphabet",
      "Hey Siri. Define airplane",
      "Hey Siri. What is the definition of airplane?",
      "Hey Siri. What does the French word maison mean in English?",
      "Hey Siri. Find books by Charles Dickens",
      "Hey Siri. Find movies by Christopher Nolan",
      "Hey Siri. What is the movie Indiana Jones about?",
      "Hey Siri. When was Indiana Jones released?",
      "Hey Siri. Runtime of Indiana Jones?",
      "Hey Siri. Who acted in Indiana Jones?",
      "Hey Siri. Movies with Scarlett Johansson",
      "Hey Siri. Best thriller movies?",
      "Hey Siri. Which movie won Best Picture in 1966?",
      "Hey Siri. What movies are playing this evening?",
      "Hey Siri. Buy three tickets to see The Lego Movie tonight in Sacramento",
      "Hey Siri. Find some movie theaters near my home",
      "Hey Siri. Shuffle my gym playlist",
      "Hey Siri. What’s this song?",
      "Hey Siri. Who sings this?",
      "Hey Siri. I like this song",
      "Hey Siri. What is the point spread in the NFL game?",
      "Hey Siri. How is Chelsea doing?",
      "Hey Siri. Results from Liverpool last game?",
      "Hey Siri. Who’s going to win the Vikings game?",
      "Hey Siri. When is the next Liverpool game?",
      "Hey Siri. What Channel is the Royals game on?",
      "Hey Siri. When is the Super Bowl?",
      "Hey Siri. Flip a coin",
      "Hey Siri. Pick a card",
      "Hey Siri. Roll a twenty-sided die",
      "Hey Siri. Random number between 30 and 60",
      "Hey Siri. See you on the seventh",
      "Hey Siri. What is 1 million divided by 0?",
      "Hey Siri. What is 0 divided by 0?",
      "Hey Siri. What is infinity times infinity?",
      "Hey Siri. Rock paper scissors",
      "Hey Siri. Sudo make me a sandwich",
      "Hey Siri. Tell me a joke",
      "Hey Siri. Tell haiku",
      "Hey Siri. Tell me a tongue twister",
      "Hey Siri. Tell me a story",
      "Hey Siri. Tell me a poem",
      "Hey Siri. Tell me a secret",
      "Hey Siri. Tell me a bedtime story",
      "Hey Siri. Sing me a lullaby",
      "Hey Siri. Beam me up",
      "Hey Siri. Guess what",
      "Hey Siri. Who’s on first?",
      "Hey Siri. Open the pod bay doors",
      "Hey Siri. Sing me a song now",
      "Hey Siri. When is your birthday?",
      "Hey Siri. What’s your sign?",
      "Hey Siri. What’s your favourite animal?",
      "Hey Siri. What color is your hair?",
      "Hey Siri. How much do you weigh?",
      "Hey Siri. Are you smart?",
      "Hey Siri. Are you perfect?",
      "Hey Siri. Do you think I look fat in this?",
      "Hey Siri. Will you marry me?",
      "Hey Siri. May the force be with you",
      "Hey Siri. Can I call you Jarvis?",
      "Hey Siri. When do you sleep?",
      "Hey Siri. How is it to be you?",
      "Hey Siri. Have you seen Star Wars?",
      "Hey Siri. What is your favourite colour?",
      "Hey Siri. What are you going to be for Halloween?",
      "Hey Siri. Do you know pick up lines?",
      "Hey Siri. Mirror mirror on the wall, who’s the fairest of them all?",
      "Hey Siri. What does the fox say?",
      "Hey Siri. Who let the dogs out?",
      "Hey Siri. How much wood could a woodchuck chuck if a woodchuck could chuck wood?",
      "Hey Siri. What is the airspeed velocity of an unladen swallow?",
      "Hey Siri. Why are fire trucks red?",
      "Hey Siri. Why did the chicken cross the road?",
      "Hey Siri. What is the meaning of life?",
      "Hey Siri. When is the end of the world?",
      "Hey Siri. What’s the best phone?",
      "Hey Siri. Can I borrow some money?",
      "Hey Siri. supercalifragilisticexpialidocious",
      "Hey Siri. Rap Beatbox",
      "Hey Siri. Can I call you Cortana?",
      "Hey Siri. You’re the best",
      "Hey Siri. Meow",
      "Hey Siri. I’m sleepy",
      "Hey Siri. How many languages do you speak?"]
  | .Small =>
    ["Hey Siri. What is the factorial of 6?",
      "Hey Siri. What day was 90 days ago?",
      "Hey Siri. What is the temperature in living room?",
      "Hey Siri. Any missed calls?",
      "Hey Siri. Read Calendar",
      "Hey Siri. Remind me to wash the car",
      "Hey Siri. How far is New York from Boston",
      "Hey Siri. How old is Ian McKellen?",
      "Hey Siri. What’s the temperature outside?",
      "Hey Siri. Translate car from English to Spanish",
      "Hey Siri. Roll a die",
      "Hey Siri. Is there a God?",
      "Hey Siri. What’s 2330 dollars in euros?"]
  | .Binary =>
    ["Hey Siri. Call John Doe",
      "Hey Siri. Call Mary Poppins"]

/-- `DatasetSize::filter` (`src/varys/src/dataset.rs`, lines 22-31): `Full` returns the
interactions unchanged; otherwise keep, in order, the interactions whose query text the
size's `queries()` list contains. -/
def DatasetSize.filter (s : DatasetSize) (interactions : List Interaction) :
    List Interaction :=
  match s with
  | .Full => interactions
  | _ => interactions.filter fun interaction => s.queries.contains interaction.query

/-! Fixtures for the concrete runs, mirroring the spec's example values
(`interface="en0"`, voice `"Zoe"`, sensitivity `0.01`, model `Large`). -/

/-- A fixture interactor. -/
def it0 : Interactor :=
  { interface := "en0", voices := ["Zoe"], speakerVoice := some "Zoe"
    sensitivity := 1 / 100, model := "Large", data_dir := "data" }

/-- A fixture session row as `begin_session` would store it. -/
def sess0 : SessionRow :=
  { id := 1, started := 0, ended := none, interface := "en0", voice := "Zoe"
    sensitivity := "1/100", model := "Large", data_dir := some "data/sessions/session_1" }

/-- The fixture instance bound to `sess0`. -/
def inst0 : InteractorInstance :=
  { interactor := it0, session := sess0, session_path := ["data", "sessions", "session_1"] }

/-- Initial engine state: the session row is stored, no interactions yet. -/
def st0 : EngSt := { db := { sessions := [sess0], interactions := [] }, events := [], clock := 10 }

/-- A fixture query. -/
def q0 : Query := { text := "Hey Siri. Roll a die", category := "randomness" }

/-- Fixture queries for a three-interaction session. -/
def q1 : Query := { text := "Hey Siri. Flip a coin", category := "randomness" }

/-- Fixture queries for a three-interaction session. -/
def q2 : Query := { text := "Hey Siri. Pick a card", category := "randomness" }

/-- A fixture audio buffer (four mono samples at 2 Hz, so `duration_ms = 2000`). -/
def audio0 : AudioData := { data := [0, 1 / 2, 1 / 2, 0], channels := 1, sample_rate := 2 }

/-- Every call of one `interaction` succeeds, with fixture payloads. -/
def stepsAllOk : StepOutcomes :=
  { ping := .ok (), create := .ok (), snifferStart := .ok (), listenerStart := .ok ()
    say := .ok 1200, queryStop := .ok audio0, queryWrite := .ok (), update1 := .ok ()
    record := .ok audio0, responseWrite := .ok (), update2 := .ok ()
    snifferStop := .ok "5 packets captured", recognise := .ok "I rolled a 4"
    update3 := .ok (), complete := .ok () }

/-- Event classifiers used to read traces. -/
def Event.isStartOrSessionComplete : Event → Bool
  | .startInteractionLog _ => true
  | .sessionCompleteCall _ => true
  | _ => false

/-- Whether an event is the `query_instance.stop()` call. -/
def Event.isListenerStopCall : Event → Bool
  | .listenerStopCall => true
  | _ => false

/-- Whether an event is an `Interaction::update` call. -/
def Event.isRowUpdateCall : Event → Bool
  | .rowUpdateCall _ => true
  | _ => false

/-- Whether an event is the `sniffer_instance.stop()` call. -/
def Event.isSnifferStopCall : Event → Bool
  | .snifferStopCall => true
  | _ => false

/-- Whether an event is a `sniffer.start` call. -/
def Event.isSnifferStartCall : Event → Bool
  | .snifferStartCall _ => true
  | _ => false

/-- Whether an event is a `write_audio` call. -/
def Event.isWriteAudioCall : Event → Bool
  | .writeAudioCall _ => true
  | _ => false

/-- Whether an event is an `Interaction::complete` call. -/
def Event.isInteractionCompleteCall : Event → Bool
  | .interactionCompleteCall _ => true
  | _ => false

end Varys

namespace Varys

/-! Claim theorems and their supporting lemmas. -/

/-- C9: `DatasetSize::Full.filter` is the identity, and for `Small` and `Binary` the
filter returns exactly the interactions, in their original order, whose query text is
a member of the size's fixed `queries()` list. -/
theorem dataset_filter_characterisation (xs : List Interaction) :
    DatasetSize.filter .Full xs = xs
  ∧ ((DatasetSize.filter .Small xs).Sublist xs
      ∧ DatasetSize.filter .Small xs
          = xs.filter fun i => decide (i.query ∈ DatasetSize.queries .Small))
  ∧ ((DatasetSize.filter .Binary xs).Sublist xs
      ∧ DatasetSize.filter .Binary xs
          = xs.filter fun i => decide (i.query ∈ DatasetSize.queries .Binary)) := by
  refine ⟨rfl, ⟨?_, ?_⟩, ⟨?_, ?_⟩⟩
  · exact List.filter_sublist xs
  · simp only [DatasetSize.filter]
    exact List.filter_congr fun i _ => by simp
  · exact List.filter_sublist xs
  · simp only [DatasetSize.filter]
    exact List.filter_congr fun i _ => by simp

/-- C10: with the listener-instance calls succeeding, `calibrate` never guards the
final division: on an empty average list it returns `Ok` of the f32 NaN produced by
`0.0 / 0.0`, and with at least one average it returns the finite mean
`sum / length`. -/
theorem calibrate_no_guard (a : AudioData) (l : List ℚ) (hl : l ≠ []) :
    calibrate (.ok ()) (.ok a) [] = .ok F32.nan
  ∧ calibrate (.ok ()) (.ok a) l = .ok (.fin (l.sum / (l.length : ℚ))) := by
  constructor
  · simp [calibrate, F32.div]
  · have hlen : l.length ≠ 0 := fun hh => hl (List.length_eq_zero.mp hh)
    have h0 : (l.length : ℚ) ≠ 0 := Nat.cast_ne_zero.mpr hlen
    simp [calibrate, F32.div, h0]

/-- Witness for C10 at a concrete input: the empty channel yields NaN, a singleton
channel yields its own value as the mean. -/
theorem calibrate_no_guard_witness :
    calibrate (.ok ()) (.ok audio0) [] = .ok F32.nan
  ∧ calibrate (.ok ()) (.ok audio0) [3] = .ok (.fin 3) := by
  have h := calibrate_no_guard audio0 [3] (by decide)
  refine ⟨h.1, ?_⟩
  rw [h.2]
  norm_num

/-- C7: an empty voice queue makes `begin_session` fail with `NoVoiceProvided` and
leaves the state untouched: no session row is inserted and no event — in particular no
`voiceSetCall` on the speaker — takes place. -/
theorem begin_session_empty_queue (o : BeginOutcomes) (it : Interactor) (st : EngSt)
    (h : it.voices = []) :
    Interactor.begin_session o it st = (.error .NoVoiceProvided, st) := by
  cases it
  simp_all [Interactor.begin_session]

/-- Witness for C7 at a concrete input. -/
theorem begin_session_empty_queue_witness :
    Interactor.begin_session beginAllOk
        { interface := "en0", voices := [], speakerVoice := none
          sensitivity := 1 / 100, model := "Large", data_dir := "data" } st0
      = (.error .NoVoiceProvided, st0) :=
  begin_session_empty_queue beginAllOk
    { interface := "en0", voices := [], speakerVoice := none
      sensitivity := 1 / 100, model := "Large", data_dir := "data" } st0 rfl

/-- C8: with `silence_duration = 0` and the timeout disabled, the receive loop of
`record_until_silent` stops at the first window whose average is not strictly above
the threshold (ties count as silence), and a strictly-above-threshold window never
makes it stop on its own: the loop consumes the strictly-loud prefix plus the one
terminating window, or the whole channel when every window is loud. -/
theorem record_zero_silence_first_quiet_window (threshold started last0 : ℚ)
    (windows : List (ℚ × ℚ))
    (hmono : List.Chain (fun a b : ℚ => a < b) last0 (windows.map Prod.fst)) :
    recordUntilSilentLoop none 0 threshold started last0 windows
      = min ((windows.takeWhile fun w => decide (threshold < w.2)).length + 1)
          windows.length := by
  induction windows generalizing last0 with
  | nil => simp [recordUntilSilentLoop]
  | cons w rest ih =>
    obtain ⟨now, average⟩ := w
    rw [List.map_cons, List.chain_cons] at hmono
    obtain ⟨h1, h2⟩ := hmono
    rw [recordUntilSilentLoop, List.takeWhile_cons]
    by_cases hl : threshold < average
    · simp only [if_pos hl, sub_zero]
      rw [if_neg (lt_irrefl now), ih now h2]
      simp [hl]
      omega
    · have hcond : (if threshold < average then now else last0) < now - 0 := by
        rw [if_neg hl, sub_zero]
        exact h1
      rw [if_pos hcond]
      simp [hl]

/-- Witness for C8 at a concrete input: threshold 1, windows at instants 1, 2, 3 with
averages 2, 0, 5 — the loop consumes exactly the loud first window and the quiet
second one. -/
theorem record_zero_silence_first_quiet_window_witness :
    recordUntilSilentLoop none 0 1 0 0 [(1, 2), (2, 0), (3, 5)] = 2 := by
  have h := record_zero_silence_first_quiet_window 1 0 0 [(1, 2), (2, 0), (3, 5)]
    (by norm_num [List.chain_cons])
  rw [h]
  norm_num [List.takeWhile_cons]

/-- Rotating the queue one step relabels round-robin indexing: cyclical position `j` of
the rotated queue `rest ++ [v]` is cyclical position `j + 1` of `v :: rest`. -/
theorem rotate_getD (v : String) (rest : List String) (j : Nat) :
    (rest ++ [v]).getD (j % (rest.length + 1)) ""
      = (v :: rest).getD ((j + 1) % (rest.length + 1)) "" := by
  have hn : 0 < rest.length + 1 := Nat.succ_pos _
  have hm : j % (rest.length + 1) < rest.length + 1 := Nat.mod_lt _ hn
  have hstep : (j + 1) % (rest.length + 1)
      = (j % (rest.length + 1) + 1) % (rest.length + 1) := by
    conv_lhs => rw [Nat.add_mod]
    conv_rhs => rw [Nat.add_mod, Nat.mod_mod_of_dvd j dvd_rfl]
  rw [hstep]
  rcases Nat.lt_or_ge (j % (rest.length + 1) + 1) (rest.length + 1) with h | h
  · rw [Nat.mod_eq_of_lt h, List.getD_cons_succ]
    exact List.getD_append rest [v] "" _ (by omega)
  · have hj : j % (rest.length + 1) = rest.length := by omega
    have h0 : (j % (rest.length + 1) + 1) % (rest.length + 1) = 0 := by
      rw [hj, Nat.mod_self]
    rw [h0, List.getD_cons_zero, hj]
    rw [List.getD_append_right rest [v] "" rest.length le_rfl]
    simp

/-- With every external call succeeding, `k` chained `begin_session`s walk the initial
voice queue cyclically: session `j` (0-based) stores the voice at position
`j mod n` of the initial queue. -/
theorem runSessionsVoices_eq (k : Nat) (it : Interactor) (st : EngSt)
    (h : it.voices ≠ []) :
    runSessionsVoices k it st
      = (List.range k).map fun j => it.voices.getD (j % it.voices.length) "" := by
  induction k generalizing it st with
  | zero => rfl
  | succ k ih =>
    obtain ⟨itf, vs, spk, sens, mdl, dd⟩ := it
    match vs, h with
    | v :: rest, _ =>
      obtain ⟨sess, path, st', heq, hv⟩ :
          ∃ sess path st',
            Interactor.begin_session beginAllOk ⟨itf, v :: rest, spk, sens, mdl, dd⟩ st
              = (.ok ⟨⟨itf, rest ++ [v], some v, sens, mdl, dd⟩, sess, path⟩, st')
            ∧ sess.voice = v :=
        ⟨_, _, _, rfl, rfl⟩
      rw [runSessionsVoices, heq]
      have hne : (⟨itf, rest ++ [v], some v, sens, mdl, dd⟩ : Interactor).voices ≠ [] := by
        simp
      dsimp only
      rw [ih _ st' hne, hv]
      simp only [List.length_append, List.length_cons, List.length_nil, Nat.zero_add]
      rw [funext fun j => rotate_getD v rest j]
      rw [List.range_succ_eq_map, List.map_cons, List.map_map]
      congr 1

/-- How often residue `i` occurs among `0, ..., k-1` modulo `n`. -/
theorem countP_mod_range (n i : Nat) (hn : 0 < n) (hi : i < n) (k : Nat) :
    (List.range k).countP (fun j => decide (j % n = i))
      = k / n + if i < k % n then 1 else 0 := by
  induction k with
  | zero => simp
  | succ k ih =>
    rw [List.range_succ, List.countP_append, ih]
    have h1 : k % n < n := Nat.mod_lt _ hn
    have hdm : n * (k / n) + k % n = k := Nat.div_add_mod k n
    rcases Nat.lt_or_ge (k % n + 1) n with h | h
    · have hm : (k + 1) % n = k % n + 1 := by
        conv_lhs => rw [← hdm]
        rw [(by omega : n * (k / n) + k % n + 1 = n * (k / n) + (k % n + 1)),
          Nat.mul_add_mod, Nat.mod_eq_of_lt h]
      have hd : (k + 1) / n = k / n := by
        conv_lhs => rw [← hdm]
        rw [(by omega : n * (k / n) + k % n + 1 = n * (k / n) + (k % n + 1)),
          Nat.mul_add_div hn, Nat.div_eq_of_lt h]
        omega
      rw [hm, hd]
      simp only [List.countP_cons, List.countP_nil]
      by_cases hki : k % n = i
      · have hik : ¬ i < k % n := by omega
        have hik1 : i < k % n + 1 := by omega
        simp [hki, hik, hik1]
      · by_cases hik : i < k % n
        · have hik1 : i < k % n + 1 := by omega
          simp [hki, hik, hik1]
        · have hik1 : ¬ i < k % n + 1 := by omega
          simp [hki, hik, hik1]
    · have hrn : k % n + 1 = n := by omega
      have hm : (k + 1) % n = 0 := by
        conv_lhs => rw [← hdm]
        rw [(by omega : n * (k / n) + k % n + 1 = n * (k / n) + n), Nat.mul_add_mod,
          Nat.mod_self]
      have hd : (k + 1) / n = k / n + 1 := by
        conv_lhs => rw [← hdm]
        rw [(by omega : n * (k / n) + k % n + 1 = n * (k / n) + n), Nat.mul_add_div hn,
          Nat.div_self hn]
      rw [hm, hd]
      simp only [List.countP_cons, List.countP_nil]
      by_cases hki : k % n = i
      · have hik : ¬ i < k % n := by omega
        simp [hki, hik]
      · have hik : i < k % n := by omega
        simp [hki, hik]

/-- How often the voice at initial position `i` is used over `k` chained sessions. -/
theorem count_runSessionsVoices (it : Interactor) (st : EngSt) (k i : Nat)
    (hnd : it.voices.Nodup) (hi : i < it.voices.length) :
    (runSessionsVoices k it st).count it.voices[i]
      = k / it.voices.length + if i < k % it.voices.length then 1 else 0 := by
  have hn : 0 < it.voices.length := by omega
  have hne : it.voices ≠ [] := List.ne_nil_of_length_pos hn
  rw [runSessionsVoices_eq k it st hne, List.count, List.countP_map]
  have hpt : ((fun x => x == it.voices[i])
        ∘ fun j => it.voices.getD (j % it.voices.length) "")
      = fun j => decide (j % it.voices.length = i) := by
    funext j
    have hj : j % it.voices.length < it.voices.length := Nat.mod_lt _ hn
    simp only [Function.comp]
    rw [List.getD_eq_getElem it.voices "" hj]
    by_cases he : j % it.voices.length = i
    · simp [he]
    · have hne2 : it.voices[j % it.voices.length] ≠ it.voices[i] := by
        intro hx
        exact he (hnd.getElem_inj_iff.mp hx)
      simp [hne2, he]
  rw [hpt]
  exact countP_mod_range it.voices.length i hn hi k

/-- When `k mod n` is nonzero, the ceiling `⌈k/n⌉ = (k + n - 1) / n` is one more than
the floor. -/
theorem ceil_div_eq_succ (k n : Nat) (hn : 0 < n) (h : k % n ≠ 0) :
    (k + n - 1) / n = k / n + 1 := by
  have hdm : n * (k / n) + k % n = k := Nat.div_add_mod k n
  have h1 : k % n < n := Nat.mod_lt _ hn
  have he1 : k + n - 1 = n * (k / n) + n + (k % n - 1) := by omega
  have he2 : n * (k / n) + n + (k % n - 1) = n * (k / n + 1) + (k % n - 1) := by ring
  rw [he1, he2, Nat.mul_add_div hn, Nat.div_eq_of_lt (show k % n - 1 < n by omega)]

/-- C6: `begin_session` on a nonempty queue pops the front voice, applies it to the
speaker, stores it in the session row and pushes it to the back of the queue;
consequently, over a duplicate-free roster `l` of size `n`, after `k` consecutive
sessions each voice has been used either `⌊k/n⌋` or `⌈k/n⌉ = (k + n - 1) / n` times. -/
theorem voice_rotation_round_robin (it : Interactor) (st : EngSt) (v : String)
    (rest : List String) (k i : Nat) (l : List String) (hnd : l.Nodup)
    (hi : i < l.length) :
    (∃ sess path st',
        Interactor.begin_session beginAllOk { it with voices := v :: rest } st
          = (.ok { interactor := { it with voices := rest ++ [v], speakerVoice := some v }
                   session := sess, session_path := path }, st')
      ∧ sess.voice = v
      ∧ Event.voiceSetCall v ∈ st'.events)
  ∧ ((runSessionsVoices k { it with voices := l } st).count l[i] = k / l.length
      ∨ (runSessionsVoices k { it with voices := l } st).count l[i]
          = (k + l.length - 1) / l.length) := by
  constructor
  · refine ⟨_, _, _, rfl, rfl, ?_⟩
    simp [Interactor.begin_session, beginAllOk, andThen, callStep, EngSt.emit, EngSt.tick,
      Session.create, Session.update]
  · have hc := count_runSessionsVoices { it with voices := l } st k i hnd hi
    dsimp only at hc
    by_cases hik : i < k % l.length
    · right
      rw [hc, if_pos hik, ceil_div_eq_succ k l.length (by omega) (by omega)]
    · left
      rw [hc, if_neg hik]
      omega

/-- Witness for C6 at a concrete input: roster `["A", "B"]`, three sessions — voice
`"A"` (position 0) is used either `⌊3/2⌋` or `⌈3/2⌉ = (3 + 2 - 1) / 2` times. -/
theorem voice_rotation_round_robin_witness :
    (runSessionsVoices 3
        { interface := "en0", voices := ["A", "B"], speakerVoice := none
          sensitivity := 1 / 100, model := "Large", data_dir := "data" } st0).count "A"
      = 3 / 2
  ∨ (runSessionsVoices 3
        { interface := "en0", voices := ["A", "B"], speakerVoice := none
          sensitivity := 1 / 100, model := "Large", data_dir := "data" } st0).count "A"
      = (3 + 2 - 1) / 2 := by
  have h := voice_rotation_round_robin
    { interface := "en0", voices := ["A", "B"], speakerVoice := none
      sensitivity := 1 / 100, model := "Large", data_dir := "data" } st0 "A" ["B"] 3 0
    ["A", "B"] (by decide) (by decide)
  simpa using h.2

/-- `andThen` preserves a fact about the filtered trace that holds after the first
action and that the continuation preserves. -/
theorem andThen_filter_inv {α β : Type} {P : Event → Bool} {base : List Event}
    {x : Except Error α × EngSt} {k : α → EngSt → Except Error β × EngSt}
    (hx : x.2.events.filter P = base)
    (hk : ∀ a st', st'.events.filter P = base → ((k a st').2.events.filter P) = base) :
    ((andThen x k).2.events.filter P) = base := by
  rcases x with ⟨r, st'⟩
  cases r
  · simpa using hx
  · exact hk _ _ hx

/-- `Interaction::create` emits no event. -/
theorem create_events (ok : Except Error Unit) (s : SessionRow) (q : Query) (st : EngSt) :
    (Interaction.create ok s q st).2.events = st.events := by
  cases ok <;> rfl

/-- `Interaction::update` emits no interaction-start log and no session-complete
call. -/
theorem update_filter_sc (ok : Except Error Unit) (i : Interaction) (st : EngSt) :
    (Interaction.update ok i st).2.events.filter Event.isStartOrSessionComplete
      = st.events.filter Event.isStartOrSessionComplete := by
  cases ok <;> simp [Interaction.update, EngSt.emit, Event.isStartOrSessionComplete,
    List.filter_append]

/-- `Interaction::complete` emits no interaction-start log and no session-complete
call. -/
theorem complete_filter_sc (ok : Except Error Unit) (i : Interaction) (st : EngSt) :
    (Interaction.complete ok i st).2.events.filter Event.isStartOrSessionComplete
      = st.events.filter Event.isStartOrSessionComplete := by
  cases ok <;> simp [Interaction.complete, Interaction.update, EngSt.tick, EngSt.emit,
    Event.isStartOrSessionComplete, List.filter_append]

/-- One `interaction`, whatever its outcomes, adds exactly one
`startInteractionLog` for its query — and no session-complete call — to the filtered
trace. -/
theorem interaction_filter_sc (o : StepOutcomes) (inst : InteractorInstance) (q : Query)
    (st : EngSt) :
    (InteractorInstance.interaction o inst q st).2.events.filter
        Event.isStartOrSessionComplete
      = st.events.filter Event.isStartOrSessionComplete
          ++ [Event.startInteractionLog q.text] := by
  unfold InteractorInstance.interaction
  dsimp only
  refine andThen_filter_inv ?_ ?_
  · rw [create_events]
    cases o.ping <;>
      simp [EngSt.emit, List.filter_append, Event.isStartOrSessionComplete]
  intro i1 s1 h1
  dsimp only [EngSt.tick]
  refine andThen_filter_inv (by simp [callStep, EngSt.emit, List.filter_append,
    Event.isStartOrSessionComplete, h1]) ?_
  intro _ s2 h2
  refine andThen_filter_inv (by simp [callStep, EngSt.emit, List.filter_append,
    Event.isStartOrSessionComplete, h2]) ?_
  intro _ s3 h3
  refine andThen_filter_inv (by simp [callStep, EngSt.emit, List.filter_append,
    Event.isStartOrSessionComplete, h3]) ?_
  intro d s4 h4
  refine andThen_filter_inv (by simp [callStep, EngSt.emit, List.filter_append,
    Event.isStartOrSessionComplete, h4]) ?_
  intro _ s5 h5
  dsimp only [EngSt.tick]
  refine andThen_filter_inv (by simp [callStep, EngSt.emit, List.filter_append,
    Event.isStartOrSessionComplete, h5]) ?_
  intro _ s6 h6
  refine andThen_filter_inv (by rw [update_filter_sc]; exact h6) ?_
  intro _ s7 h7
  refine andThen_filter_inv (by simp [callStep, EngSt.emit, List.filter_append,
    Event.isStartOrSessionComplete, h7]) ?_
  intro ra s8 h8
  dsimp only [EngSt.tick]
  refine andThen_filter_inv (by simp [callStep, EngSt.emit, List.filter_append,
    Event.isStartOrSessionComplete, h8]) ?_
  intro _ s9 h9
  refine andThen_filter_inv (by rw [update_filter_sc]; exact h9) ?_
  intro _ s10 h10
  refine andThen_filter_inv (by simp [callStep, EngSt.emit, List.filter_append,
    Event.isStartOrSessionComplete, h10]) ?_
  intro _ s11 h11
  refine andThen_filter_inv (by simp [callStep, EngSt.emit, List.filter_append,
    Event.isStartOrSessionComplete, h11]) ?_
  intro _ s12 h12
  refine andThen_filter_inv (by rw [update_filter_sc]; exact h12) ?_
  intro _ s13 h13
  refine andThen_filter_inv (by rw [complete_filter_sc]; exact h13) ?_
  intro _ s14 h14
  exact h14

/-- The per-query loop appends one `startInteractionLog` per query, in input order, to
the filtered trace — regardless of each query's outcomes. -/
theorem runQueries_filter_sc (orc : Nat → StepOutcomes) (inst : InteractorInstance) :
    ∀ (queries : List Query) (k : Nat) (st : EngSt),
    (runQueries orc inst k queries st).events.filter Event.isStartOrSessionComplete
      = st.events.filter Event.isStartOrSessionComplete
          ++ queries.map fun qq => Event.startInteractionLog qq.text := by
  intro queries
  induction queries with
  | nil => intro k st; simp [runQueries]
  | cons qq rest ih =>
    intro k st
    rw [runQueries]
    rcases hres : InteractorInstance.interaction (orc k) inst qq st with ⟨r, st'⟩
    have hst' : st'.events.filter Event.isStartOrSessionComplete
        = st.events.filter Event.isStartOrSessionComplete
            ++ [Event.startInteractionLog qq.text] := by
      have h := interaction_filter_sc (orc k) inst qq st
      rw [hres] at h
      exact h
    cases r
    · dsimp only
      rw [ih (k + 1)]
      simp [EngSt.emit, List.filter_append, Event.isStartOrSessionComplete, hst']
    · dsimp only
      rw [ih (k + 1), hst']
      simp

/-- `Session::complete` appends exactly one `sessionCompleteCall` to the filtered
trace, whatever its store outcome. -/
theorem session_complete_filter_sc (ok : Except Error Unit) (s : SessionRow) (st : EngSt) :
    (Session.complete ok s st).2.events.filter Event.isStartOrSessionComplete
      = st.events.filter Event.isStartOrSessionComplete
          ++ [Event.sessionCompleteCall s.id] := by
  cases ok <;> simp [Session.complete, Session.update, EngSt.tick, EngSt.emit,
    Event.isStartOrSessionComplete, List.filter_append]

/-- C2: for every oracle of per-call outcomes, `start` runs `interaction` once per
query in input order (one `startInteractionLog` per query, in order); an error in any
single interaction is trapped — it never shows in `start`'s result, which depends only
on the final session-complete store write — and after the loop `complete` is called on
the session exactly once, after all the queries. -/
theorem start_runs_each_query_and_completes_session (orc : Nat → StepOutcomes)
    (sessionComplete : Except Error Unit) (inst : InteractorInstance)
    (queries : List Query) (st : EngSt) :
    ((InteractorInstance.start orc sessionComplete inst queries st).2.events.filter
        Event.isStartOrSessionComplete)
      = st.events.filter Event.isStartOrSessionComplete
          ++ (queries.map fun qq => Event.startInteractionLog qq.text)
          ++ [Event.sessionCompleteCall inst.session.id]
  ∧ (InteractorInstance.start orc sessionComplete inst queries st).1
      = sessionComplete.map fun _ => inst.interactor := by
  constructor
  · unfold InteractorInstance.start
    refine andThen_filter_inv ?_ ?_
    · rw [session_complete_filter_sc, runQueries_filter_sc]
    · intro _ s h
      exact h
  · unfold InteractorInstance.start
    cases sessionComplete <;>
      simp [Session.complete, Session.update, andThen, EngSt.tick, EngSt.emit, Except.map]

/-- C1 counterexample: a concrete interaction whose recogniser call (step 9) fails.
The `?` on `recognise` returns early, so — contrary to the claim —
`Interaction::complete` is never called: no `interactionCompleteCall` is in the trace
and the stored row keeps `ended = NULL` (its `response` is also still `NULL`). -/
theorem recognise_failure_counterexample :
    (InteractorInstance.interaction
        { stepsAllOk with recognise := Except.error Error.Recognition }
        inst0 q0 st0).1 = .error .Recognition
  ∧ Event.interactionCompleteCall 1 ∉
      (InteractorInstance.interaction
        { stepsAllOk with recognise := Except.error Error.Recognition }
        inst0 q0 st0).2.events
  ∧ (Db.interactionRow
        (InteractorInstance.interaction
          { stepsAllOk with recognise := Except.error Error.Recognition }
          inst0 q0 st0).2.db 1).map (fun row => (row.response, row.ended))
      = some (none, none) := by
  refine ⟨by decide, by decide, by decide⟩

/-- The outcome oracle of C1's amended scenario (the spec's recogniser-failure
injection): of three interactions, the second one's recogniser call fails; every
other call succeeds. -/
def orcRecogniseFail : Nat → StepOutcomes := fun k =>
  if k = 1 then { stepsAllOk with recognise := Except.error Error.Recognition }
  else stepsAllOk

/-- C1 amended: when step 9 (recognition) fails, the interaction row's `response`
stays `NULL`, but `complete` is NOT called on the interaction — its `ended` stays
`NULL` and the error propagates to the per-query handler in `start`, which logs it;
the surrounding interactions and the session still complete, with `ended` set. -/
theorem recognise_failure_amended :
    (InteractorInstance.start orcRecogniseFail (.ok ()) inst0 [q0, q1, q2] st0).1
      = .ok it0
  ∧ (Db.interactionRow
        (InteractorInstance.start orcRecogniseFail (.ok ()) inst0 [q0, q1, q2]
          st0).2.db 2).map (fun row => (row.response, row.ended)) = some (none, none)
  ∧ Event.interactionCompleteCall 2 ∉
      (InteractorInstance.start orcRecogniseFail (.ok ()) inst0 [q0, q1, q2]
        st0).2.events
  ∧ Event.interactionErrorLog ∈
      (InteractorInstance.start orcRecogniseFail (.ok ()) inst0 [q0, q1, q2]
        st0).2.events
  ∧ (Db.interactionRow
        (InteractorInstance.start orcRecogniseFail (.ok ()) inst0 [q0, q1, q2]
          st0).2.db 1).map (fun row => row.ended.isSome) = some true
  ∧ (Db.interactionRow
        (InteractorInstance.start orcRecogniseFail (.ok ()) inst0 [q0, q1, q2]
          st0).2.db 3).map (fun row => row.ended.isSome) = some true
  ∧ (Db.sessionRow
        (InteractorInstance.start orcRecogniseFail (.ok ()) inst0 [q0, q1, q2]
          st0).2.db 1).map (fun row => row.ended.isSome) = some true := by
  refine ⟨by rfl, by decide, by decide, by decide, by decide, by decide, by decide⟩

/-- C3: `Interaction::update`'s UPDATE statement writes only `(session_id, query,
query_duration, response, response_duration, started, ended)` — never the three
file-reference columns.  First conjunct: the statement leaves `query_file`,
`response_file` and `capture_file` untouched on any row.  Rest: in a fully successful
interaction — the audio and capture files are written, `update` runs three times,
`complete` runs once maps and sets `ended` — the stored row still has `NULL` in all
three file-reference columns. -/
theorem file_columns_never_persisted :
    (∀ (i : Interaction) (r : InteractionRow),
        ((i.updateRow r).query_file, (i.updateRow r).response_file,
          (i.updateRow r).capture_file)
          = (r.query_file, r.response_file, r.capture_file))
  ∧ (InteractorInstance.interaction stepsAllOk inst0 q0 st0).1 = .ok ()
  ∧ (InteractorInstance.interaction stepsAllOk inst0 q0 st0).2.events.countP
        Event.isWriteAudioCall = 2
  ∧ (InteractorInstance.interaction stepsAllOk inst0 q0 st0).2.events.countP
        Event.isRowUpdateCall = 4
  ∧ (Db.interactionRow
        (InteractorInstance.interaction stepsAllOk inst0 q0 st0).2.db 1).map
        (fun row => (row.query_file, row.response_file, row.capture_file,
          row.ended.isSome))
      = some (none, none, none, true) := by
  refine ⟨fun i r => rfl, by decide, by decide, by decide, by decide⟩

/-- C4 counterexample: a concrete interaction whose `speaker.say` (step 5) fails.
The `?` on `say` returns early, so — contrary to the claim — the query Listener
instance's `stop` is never called: no `listenerStopCall` is in the trace. -/
theorem say_failure_counterexample :
    (InteractorInstance.interaction
        { stepsAllOk with say := Except.error Error.SpeakerError } inst0 q0 st0).1
      = .error .SpeakerError
  ∧ Event.listenerStopCall ∉
      (InteractorInstance.interaction
        { stepsAllOk with say := Except.error Error.SpeakerError } inst0 q0 st0).2.events := by
  refine ⟨by decide, by decide⟩

/-- C4 amended: when step 4 (listener start) succeeds but step 5 (`speaker.say`)
fails, the error propagates to the per-query handler and the query-file row update is
indeed skipped — but the query Listener instance is NOT stopped via `stop()`: its
handle is merely dropped.  No `stop`, no row update and no audio write happen, and the
store holds only the freshly inserted row. -/
theorem say_failure_amended (e : Error) (q : Query) (inst : InteractorInstance)
    (st : EngSt) :
    (InteractorInstance.interaction { stepsAllOk with say := Except.error e } inst q
        st).1 = .error e
  ∧ (InteractorInstance.interaction { stepsAllOk with say := Except.error e } inst q
        st).2.events.countP Event.isListenerStopCall
      = st.events.countP Event.isListenerStopCall
  ∧ (InteractorInstance.interaction { stepsAllOk with say := Except.error e } inst q
        st).2.events.countP Event.isRowUpdateCall
      = st.events.countP Event.isRowUpdateCall
  ∧ (InteractorInstance.interaction { stepsAllOk with say := Except.error e } inst q
        st).2.events.countP Event.isWriteAudioCall
      = st.events.countP Event.isWriteAudioCall
  ∧ (InteractorInstance.interaction { stepsAllOk with say := Except.error e } inst q
        st).2.db.interactions
      = st.db.interactions ++
        [{ id := st.db.interactions.length + 1, session_id := inst.session.id
           query := q.text, response := none, query_duration := none
           response_duration := none, query_file := none, response_file := none
           capture_file := none, started := st.clock, ended := none }] := by
  refine ⟨?_, ?_, ?_, ?_, ?_⟩ <;>
    simp [InteractorInstance.interaction, andThen, callStep, EngSt.emit, EngSt.tick,
      Interaction.create, stepsAllOk, List.countP_append, Event.isListenerStopCall,
      Event.isRowUpdateCall, Event.isWriteAudioCall]

/-- C5 counterexample: a concrete interaction whose `record_until_silent` (step 7)
fails.  The `?` on the recording returns early, so — contrary to the claim — the
Sniffer instance's `stop` (step 8) is never invoked: no `snifferStopCall` is in the
trace, while a `snifferStartCall` is. -/
theorem record_failure_counterexample :
    (InteractorInstance.interaction
        { stepsAllOk with record := Except.error Error.RecordingFailed } inst0 q0
        st0).1 = .error .RecordingFailed
  ∧ Event.snifferStopCall ∉
      (InteractorInstance.interaction
        { stepsAllOk with record := Except.error Error.RecordingFailed } inst0 q0
        st0).2.events
  ∧ (InteractorInstance.interaction
        { stepsAllOk with record := Except.error Error.RecordingFailed } inst0 q0
        st0).2.events.countP Event.isSnifferStartCall = 1 := by
  refine ⟨by decide, by decide, by decide⟩

/-- C5 amended: when recording the response (step 7) fails, the error propagates to
the per-query handler, but the Sniffer instance's `stop` is NOT invoked: the packet
capture the interaction started (one `snifferStartCall`) is never matched by a
`snifferStopCall`. -/
theorem record_failure_amended (e : Error) (q : Query) (inst : InteractorInstance)
    (st : EngSt) :
    (InteractorInstance.interaction { stepsAllOk with record := Except.error e } inst q
        st).1 = .error e
  ∧ (InteractorInstance.interaction { stepsAllOk with record := Except.error e } inst q
        st).2.events.countP Event.isSnifferStopCall
      = st.events.countP Event.isSnifferStopCall
  ∧ (InteractorInstance.interaction { stepsAllOk with record := Except.error e } inst q
        st).2.events.countP Event.isSnifferStartCall
      = st.events.countP Event.isSnifferStartCall + 1 := by
  refine ⟨?_, ?_, ?_⟩ <;>
    simp [InteractorInstance.interaction, andThen, callStep, EngSt.emit, EngSt.tick,
      Interaction.create, Interaction.update, stepsAllOk, List.countP_append,
      Event.isSnifferStopCall, Event.isSnifferStartCall]

end Varys
